import Mathlib

/-!
Shallow embedding of the linkerd2 identity subsystem: the proxy-identity
agent (`src/unnamed/part_000`, a Go `main` package) and the identity
service bootstrap (`src/controller/cmd/identity/main.go`).

Go `time.Duration` values are `Int` nanoseconds; times (`time.Time`) are
`Int` nanoseconds since an arbitrary epoch.  File contents are `List Nat`
(byte lists), file modes are `Nat`.  External crypto (x509 parsing and
chain verification) is an oracle parameter, since it lives outside this
repository; the agent's control flow around the oracle is embedded
faithfully from the source.
-/

namespace Linkerd

/-- Go `time.Millisecond` in nanoseconds. -/
def millisecond : Int := 1000000

/-- Go `time.Second` in nanoseconds. -/
def second : Int := 1000000000

/-- Go `time.Hour` in nanoseconds. -/
def hour : Int := 3600 * second

/-- Source constant `MIN_REFRESH_TIME = 1 * time.Second`. -/
def MIN_REFRESH_TIME : Int := 1 * second

/-- Source constant `MAX_REFRESH_TIME = 24 * time.Hour`. -/
def MAX_REFRESH_TIME : Int := 24 * hour

/--
Embeds `func beforeExpiry(t time.Time) time.Duration` from the agent source.
The argument is `expiry := time.Until(t)`, the remaining validity
`t - now` in nanoseconds.  Go division of `time.Duration` truncates;
both operands are positive whenever the division runs (the first branch
catches everything below one second), so `Int` division agrees with it.
-/
def beforeExpiry (expiry : Int) : Int :=
  if expiry < MIN_REFRESH_TIME then
    MIN_REFRESH_TIME
  else
    let r := (expiry / second) * (800 * millisecond)
    if r > MAX_REFRESH_TIME then MAX_REFRESH_TIME else r

/-- A completed `ioutil.WriteFile(path, bytes, mode)` call. -/
structure FileWrite where
  path : String
  bytes : List Nat
  mode : Nat
deriving DecidableEq, Repr

/-- The errors the agent `main` package can produce, one constructor per
distinct `errors.New`/`fmt.Errorf`/propagated error site. -/
inductive AgentErr
  | noTrustAnchors
  | noEndEntityDir
  | statErr
  | notADirectory (dir : String)
  | mustHavePerm (dir : String) (perm : Nat)
  | alreadyExists (p : String)
  | keyGenErr
  | keyWriteErr
  | emptyIdentity
  | csrCreateErr
  | csrWriteErr
  | noToken
  | tokenReadErr
  | dialErr
  | noCertInResponse
  | parseErr
  | verifyErr
  | notYetValid
  | expired
  | writeErr
deriving DecidableEq, Repr

/-- Outcome of an `os.Stat(p)` call: the file exists (`err == nil`), does
not exist (`os.IsNotExist(err)`), or stat failed some other way. -/
inductive StatResult
  | found
  | notFound
  | statFailed
deriving DecidableEq, Repr

/-- Go `os.FileInfo` as the agent consumes it: `IsDir()` and `Mode().Perm()`. -/
structure FileInfo where
  isDir : Bool
  perm : Nat
deriving DecidableEq, Repr

/-- Embeds `func checkNotExists(p string) (err error)` — `os.Stat` outcome passed
in as `r`.  Existing file yields `Already exists: p`; `IsNotExist` is
cleared to nil; any other stat error is propagated. -/
def checkNotExists (r : StatResult) (p : String) : Option AgentErr :=
  match r with
  | .found => some (.alreadyExists p)
  | .notFound => none
  | .statFailed => some .statErr

/-- Go `filepath.Join(dir, name)` for a nonempty `dir` with no trailing slash. -/
def filepathJoin (dir name : String) : String := dir ++ "/" ++ name

/-- The filesystem facts `checkEndEntityDir` consults: `os.Stat` of the
directory itself (`none` = stat error) and of the three artifact paths. -/
structure EndEntityDir where
  stat : Option FileInfo
  keyStat : StatResult
  csrStat : StatResult
  crtStat : StatResult
deriving DecidableEq, Repr

/-- Embeds `func checkEndEntityDir(dir string) (string, string, string, error)`.
Note the permission test in the source is `if s.Mode().Perm() == 0700`,
so the error fires exactly when the permission bits EQUAL `0700`. -/
def checkEndEntityDir (dir : String) (fs : EndEntityDir) :
    Except AgentErr (String × String × String) :=
  if dir = "" then .error .noEndEntityDir
  else
    match fs.stat with
    | none => .error .statErr
    | some s =>
      if s.isDir = false then .error (.notADirectory dir)
      else if s.perm == 0o700 then .error (.mustHavePerm dir s.perm)
      else
        let keyPath := filepathJoin dir "key"
        match checkNotExists fs.keyStat keyPath with
        | some e => .error e
        | none =>
          let csrPath := filepathJoin dir "csr"
          match checkNotExists fs.csrStat csrPath with
          | some e => .error e
          | none =>
            let crtPath := filepathJoin dir "crt.pem"
            match checkNotExists fs.crtStat crtPath with
            | some e => .error e
            | none => .ok (keyPath, csrPath, crtPath)

/-- Embeds `func generateAndStoreKey(p string) (key *ecdsa.PrivateKey, err error)`.
`genKey` is the outcome of `tls.GenerateKey()` (`some k` when `err == nil`,
`none` when it failed, in which case the Go key pointer is nil); `enc` is
`tls.EncodePrivateKeyP8`; `writeOk` is whether `ioutil.WriteFile` succeeds.
Result: (file writes performed, returned key, whether an error is returned).
The source returns immediately when `err == nil`, so the write only happens
on the generation-failure path. -/
def generateAndStoreKey (p : String) (genKey : Option Nat)
    (enc : Option Nat → List Nat) (writeOk : Bool) :
    List FileWrite × Option Nat × Bool :=
  match genKey with
  | some key => ([], some key, false)
  | none => ([⟨p, enc none, 0o400⟩], none, !writeOk)

/-- Embeds `func generateAndStoreCSR(p, id string, key *ecdsa.PrivateKey)`.
`csrGen` is the outcome of `x509.CreateCertificateRequest`. -/
def generateAndStoreCSR (p id : String) (csrGen : Option (List Nat))
    (writeOk : Bool) : List FileWrite × Except AgentErr (List Nat) :=
  if id = "" then ([], .error .emptyIdentity)
  else
    match csrGen with
    | none => ([], .error .csrCreateErr)
    | some csrb =>
      if writeOk then ([⟨p, csrb, 0o400⟩], .ok csrb)
      else ([⟨p, csrb, 0o400⟩], .error .csrWriteErr)

/-- The fields of a parsed `x509.Certificate` the agent reads. -/
structure Cert where
  notBefore : Int
  notAfter : Int
deriving DecidableEq, Repr

/-- Protobuf `pb.CertifyResponse`: `GetLeafCertificate()` and
`GetIntermediateCertificates()`. -/
structure CertifyResponse where
  leafCertificate : List Nat
  intermediateCertificates : List (List Nat)
deriving DecidableEq, Repr

/-- Oracle for the external `crypto/x509` library: certificate parsing and
chain verification against the loaded trust anchors together with a pool
of intermediates.  The agent's control flow is quantified over it. -/
structure X509Env where
  parse : List Nat → Option Cert
  verify : Cert → List Cert → Bool

/-- The `for _, b := range rsp.GetIntermediateCertificates()` loop of
`validateAndStoreCrt`: parse each intermediate in order, failing on the
first parse error. -/
def parseIntermediates (env : X509Env) : List (List Nat) → Option (List Cert)
  | [] => some []
  | b :: rest =>
    match env.parse b with
    | none => none
    | some c => (parseIntermediates env rest).map (fun cs => c :: cs)

/-- Embeds `func validateAndStoreCrt(rsp, crtPath, verify)` at wall-clock `now`.
Result: (file writes performed, returned certificate, returned error).
Go error paths return a nil certificate; the final statement returns the
parsed certificate together with the `ioutil.WriteFile` error. -/
def validateAndStoreCrt (env : X509Env) (now : Int) (rsp : CertifyResponse)
    (crtPath : String) (writeOk : Bool) :
    List FileWrite × Option Cert × Option AgentErr :=
  let crtb := rsp.leafCertificate
  if crtb.length == 0 then ([], none, some .noCertInResponse)
  else
    match env.parse crtb with
    | none => ([], none, some .parseErr)
    | some crt =>
      match parseIntermediates env rsp.intermediateCertificates with
      | none => ([], none, some .parseErr)
      | some inters =>
        if env.verify crt inters = false then ([], none, some .verifyErr)
        else if now < crt.notBefore then ([], none, some .notYetValid)
        else if crt.notAfter < now then ([], none, some .expired)
        else ([⟨crtPath, crtb, 0o600⟩], some crt,
              if writeOk then none else some .writeErr)

/-- Observable actions of one pass through the agent's renewal loop body. -/
inductive AgentEvent
  | logTokenReadErr
  | certifyCall (token : List Nat)
  | logCertifyErr
  | logValidateErr
  | fileWrite (w : FileWrite)
  | logRefresh (hasCrt : Bool) (refreshIn : Int)
  | logShuttingDown
deriving DecidableEq, Repr

/-- The loop-carried state of `main`'s `for` loop: `certifyReq.Token`
(mutated when the token reload succeeds) and the `var crt *x509.Certificate`
declared outside the loop. -/
structure LoopState where
  token : List Nat
  crt : Option Cert
deriving DecidableEq, Repr

/-- The environment one loop iteration consumes: the token-file re-read
(`none` = read error), the `client.Certify` outcome (`none` = RPC error),
the wall clock, and whether the certificate write would succeed. -/
structure IterInput where
  tokenRead : Option (List Nat)
  certifyRsp : Option CertifyResponse
  now : Int
  writeOk : Bool

/-- One pass through the body of `main`'s `for` loop, up to and including
computing `refreshIn` and the `log.Infof` line, but before the `select`.
Returns (next state, events in order, refreshIn).  Mirrors the source:
the token reload failure keeps the previous token; `crt, err =
validateAndStoreCrt(...)` reassigns `crt` with whatever is returned,
nil included. -/
def loopIter (env : X509Env) (crtPath : String) (s : LoopState)
    (i : IterInput) : LoopState × List AgentEvent × Int :=
  let tokenStep : List Nat × List AgentEvent :=
    match i.tokenRead with
    | none => (s.token, [.logTokenReadErr])
    | some t => (t, [])
  let tok := tokenStep.1
  let certifyStep : Option Cert × List AgentEvent :=
    match i.certifyRsp with
    | none => (s.crt, [.certifyCall tok, .logCertifyErr])
    | some rsp =>
      let r := validateAndStoreCrt env i.now rsp crtPath i.writeOk
      (r.2.1, [.certifyCall tok] ++ r.1.map .fileWrite ++
        (match r.2.2 with | some _ => [.logValidateErr] | none => []))
  let crt := certifyStep.1
  let refreshIn : Int :=
    match crt with
    | some c => beforeExpiry (c.notAfter - i.now)
    | none => MIN_REFRESH_TIME
  (⟨tok, crt⟩,
   tokenStep.2 ++ certifyStep.2 ++ [.logRefresh crt.isSome refreshIn],
   refreshIn)

/-- Which arm of the loop-ending `select` fired: the refresh timer or the
`stop` signal channel (SIGINT/SIGTERM). -/
inductive SleepOutcome
  | timerFired
  | signalReceived
deriving DecidableEq, Repr

/-- The `select` at the end of the loop body.  Returns (events, whether the
`for` loop runs another iteration).  In the source, the timer case says
`continue`, and the `stop` case logs `Shutting down...` and then simply
reaches the end of the `for` body — there is no `return` or `break`, so
both arms re-enter the loop. -/
def afterSleep : SleepOutcome → List AgentEvent × Bool
  | .timerFired => ([], true)
  | .signalReceived => ([.logShuttingDown], true)

/-- The agent's renewal loop run against a finite script of per-iteration
environments, producing the flat event trace.  An iteration whose
`afterSleep` reports the loop does not continue would truncate the trace. -/
def runLoop (env : X509Env) (crtPath : String) :
    LoopState → List (IterInput × SleepOutcome) → List AgentEvent
  | _, [] => []
  | s, (i, o) :: rest =>
    let r := loopIter env crtPath s i
    let a := afterSleep o
    r.2.1 ++ a.1 ++ (if a.2 then runLoop env crtPath r.1 rest else [])

/-- The pre-loop environment of the agent `main`: each fallible startup
step's outcome. -/
structure AgentWorld where
  trustAnchorsLoad : Bool
  dir : String
  fs : EndEntityDir
  genKey : Option Nat
  keyWriteOk : Bool
  name : String
  csrGen : Option (List Nat)
  csrWriteOk : Bool
  tokenPath : String
  tokenRead : Option (List Nat)
  dialOk : Bool

/-- Milestones of the agent's startup sequence, in program order.  The
Certify RPC can only happen after `enteredLoop`. -/
inductive StartupEvent
  | keyGenerated
  | csrCreated
  | dialed
  | enteredLoop
deriving DecidableEq, Repr

/-- The straight-line part of the agent `main` before the renewal loop:
load trust anchors, check the end-entity directory, generate and store the
key, generate and store the CSR, check and read the token, dial.  Any
failure is a `log.Fatal`, modelled as an error result.  Returns
(milestones reached, file writes performed, outcome). -/
def agentMain (enc : Option Nat → List Nat) (w : AgentWorld) :
    List StartupEvent × List FileWrite × Except AgentErr Unit :=
  if w.trustAnchorsLoad = false then ([], [], .error .noTrustAnchors)
  else
    match checkEndEntityDir w.dir w.fs with
    | .error e => ([], [], .error e)
    | .ok paths =>
      let keyPath := paths.1
      let csrPath := paths.2.1
      let kr := generateAndStoreKey keyPath w.genKey enc w.keyWriteOk
      if kr.2.2 = true then ([.keyGenerated], kr.1, .error .keyWriteErr)
      else
        let cr := generateAndStoreCSR csrPath w.name w.csrGen w.csrWriteOk
        match cr.2 with
        | .error e => ([.keyGenerated, .csrCreated], kr.1 ++ cr.1, .error e)
        | .ok _ =>
          if w.tokenPath = "" then
            ([.keyGenerated, .csrCreated], kr.1 ++ cr.1, .error .noToken)
          else
            match w.tokenRead with
            | none =>
              ([.keyGenerated, .csrCreated], kr.1 ++ cr.1, .error .tokenReadErr)
            | some _ =>
              if w.dialOk = false then
                ([.keyGenerated, .csrCreated, .dialed], kr.1 ++ cr.1,
                 .error .dialErr)
              else
                ([.keyGenerated, .csrCreated, .dialed, .enteredLoop],
                 kr.1 ++ cr.1, .ok ())

/-- Fatal-exit causes of the identity-service `main`
(`src/controller/cmd/identity/main.go`), one per `log.Fatalf` site on the
startup path. -/
inductive SvcErr
  | invalidTrustDomain
  | anchorsReadErr
  | anchorsDecodeErr
  | credsReadErr
  | issuerVerifyErr
  | k8sErr
  | validatorErr
  | listenErr
deriving DecidableEq, Repr

/-- Observable milestones of the identity-service startup. -/
inductive SvcEvent
  | verifyIssuer (expectedName : String)
  | serveStarted
deriving DecidableEq, Repr

/-- Source expression `fmt.Sprintf` of `identity.`, the controller namespace, and the trust domain. -/
def expectedNameFor (ns dom : String) : String :=
  "identity." ++ ns ++ "." ++ dom

/-- Outcomes of each fallible startup step of the identity-service
`main`, in program order. -/
structure IdentityWorld where
  controllerNS : String
  trustDomain : String
  trustDomainOk : Bool
  trustAnchorsRead : Bool
  trustAnchorsDecode : Bool
  credsRead : Bool
  issuerVerify : Bool
  k8sOk : Bool
  validatorOk : Bool
  listenOk : Bool

/-- The identity-service `main` up to the point where the gRPC server
goroutine starts serving.  `verifyIssuer` is emitted at the single
`creds.Crt.Verify(trustAnchors, expectedName)` call; `serveStarted` when
`srv.Serve(lis)` is reached.  Every failure is a `log.Fatalf`. -/
def identityMain (w : IdentityWorld) : List SvcEvent × Except SvcErr Unit :=
  if w.trustDomainOk = false then ([], .error .invalidTrustDomain)
  else if w.trustAnchorsRead = false then ([], .error .anchorsReadErr)
  else if w.trustAnchorsDecode = false then ([], .error .anchorsDecodeErr)
  else if w.credsRead = false then ([], .error .credsReadErr)
  else
    let nm := expectedNameFor w.controllerNS w.trustDomain
    if w.issuerVerify = false then ([.verifyIssuer nm], .error .issuerVerifyErr)
    else if w.k8sOk = false then ([.verifyIssuer nm], .error .k8sErr)
    else if w.validatorOk = false then ([.verifyIssuer nm], .error .validatorErr)
    else if w.listenOk = false then ([.verifyIssuer nm], .error .listenErr)
    else ([.verifyIssuer nm, .serveStarted], .ok ())

/--
C1, counterexample.  The claim says `beforeExpiry` is always at least
`MIN_REFRESH_TIME`, but a certificate with exactly one second of remaining
validity yields `(1s / 1s) * 800ms = 800ms`, strictly below
`MIN_REFRESH_TIME = 1s`: the lower clamp is applied to the remaining
validity before scaling, not to the scaled result.
-/
theorem beforeExpiry_below_min_at_one_second :
    beforeExpiry (1 * second) = 800 * millisecond ∧
    beforeExpiry (1 * second) < MIN_REFRESH_TIME := by
  constructor <;> decide

/--
C1, amended.  For every remaining validity `e = NotAfter - now`:
the result of `beforeExpiry` is at most `MAX_REFRESH_TIME` and at least
`800ms` (80% of `MIN_REFRESH_TIME`, not `MIN_REFRESH_TIME` itself);
whenever `e < MIN_REFRESH_TIME` — in particular for every already-expired
certificate — the result is exactly `MIN_REFRESH_TIME`; and otherwise the
result is the whole-seconds part of `e` scaled by `800ms`, clamped above
by `MAX_REFRESH_TIME`.
-/
theorem beforeExpiry_amended_clamp (e : Int) :
    beforeExpiry e ≤ MAX_REFRESH_TIME ∧
    800 * millisecond ≤ beforeExpiry e ∧
    (e < MIN_REFRESH_TIME → beforeExpiry e = MIN_REFRESH_TIME) ∧
    (MIN_REFRESH_TIME ≤ e →
      beforeExpiry e = min ((e / second) * (800 * millisecond)) MAX_REFRESH_TIME) := by
  simp only [beforeExpiry, MIN_REFRESH_TIME, MAX_REFRESH_TIME, second,
    millisecond, hour, min_def]
  split_ifs <;> refine ⟨by omega, by omega, by omega, by omega⟩

/--
C1, witness for the amended theorem: an expired certificate (remaining
validity `-5s`) gets exactly `MIN_REFRESH_TIME`, and one with `100s`
remaining gets `80s`, the clamped scaled value.
-/
theorem beforeExpiry_amended_clamp_witness :
    beforeExpiry (-(5 * second)) = MIN_REFRESH_TIME ∧
    beforeExpiry (100 * second) =
      min ((100 * second / second) * (800 * millisecond)) MAX_REFRESH_TIME :=
  ⟨(beforeExpiry_amended_clamp (-(5 * second))).2.2.1 (by decide),
   (beforeExpiry_amended_clamp (100 * second)).2.2.2 (by decide)⟩

/--
C2.  The source's permission test is inverted relative to its own error
message: `if s.Mode().Perm() == 0700` raises `Must have permissions 0700`
exactly when the permissions ARE `0700`, and accepts every other mode
(here `0777`).  Evaluating the embedded `checkEndEntityDir` on an
otherwise-empty directory shows both directions.
-/
theorem checkEndEntityDir_perm_test_inverted :
    checkEndEntityDir "d"
        ⟨some ⟨true, 0o700⟩, .notFound, .notFound, .notFound⟩ =
      .error (.mustHavePerm "d" 0o700) ∧
    checkEndEntityDir "d"
        ⟨some ⟨true, 0o777⟩, .notFound, .notFound, .notFound⟩ =
      .ok ("d/key", "d/csr", "d/crt.pem") := by
  constructor <;> rfl

/--
C3.  When `tls.GenerateKey()` succeeds, the source hits
`if err == nil { return }` and returns the key WITHOUT ever writing the
key file; the `ioutil.WriteFile(p, ..., 0400)` line is reached only on the
generation-failure path.  So a successful generation performs no file
write, contradicting the claim (and the function's own comment) that the
key is persisted read-only.
-/
theorem generateAndStoreKey_success_never_writes (p : String) (key : Nat)
    (enc : Option Nat → List Nat) (writeOk : Bool) :
    generateAndStoreKey p (some key) enc writeOk = ([], some key, false) :=
  rfl

/-- A trivial concrete x509 oracle, used to evaluate the embedding on
closed inputs: parsing always fails and verification always rejects. -/
def env0 : X509Env := ⟨fun _ => none, fun _ _ => false⟩

/--
C4.  The `select` at the end of the loop body has no `return` or `break`
in its `<-stop` arm: it logs `Shutting down...` and control falls off the
end of the `for` body, which starts another iteration.  Concretely, with a
shutdown signal arriving during the first sleep, the trace contains a
further `Certify` call after the `Shutting down...` log line, contradicting
the claim that no further Certify call is ever made after the signal.
-/
theorem loop_certifies_again_after_shutdown_signal :
    (afterSleep .signalReceived).2 = true ∧
    ∃ l1 l2,
      runLoop env0 "crt.pem" ⟨[0], none⟩
          [(⟨some [0], none, 0, true⟩, .signalReceived),
           (⟨some [0], none, 0, true⟩, .timerFired)] =
        l1 ++ AgentEvent.logShuttingDown :: l2 ∧
      AgentEvent.certifyCall [0] ∈ l2 := by
  refine ⟨rfl,
    [.certifyCall [0], .logCertifyErr, .logRefresh false MIN_REFRESH_TIME],
    [.certifyCall [0], .logCertifyErr, .logRefresh false MIN_REFRESH_TIME],
    ?_, ?_⟩
  · rfl
  · simp

/--
C10.  A Certify response whose leaf certificate is empty is rejected by
`validateAndStoreCrt` before the intermediates are even examined: the
result carries no file write, a nil certificate, and the
`Certify response does not include a certificate` error, for every
oracle, clock, intermediate list, path, and write outcome.
-/
theorem validateAndStoreCrt_empty_leaf_rejected (env : X509Env) (now : Int)
    (inters : List (List Nat)) (cp : String) (wOk : Bool) :
    validateAndStoreCrt env now ⟨[], inters⟩ cp wOk =
      ([], none, some .noCertInResponse) :=
  rfl

/-- If `validateAndStoreCrt` returns a nil certificate (any validation
failure), it performed no file write and returned an error. -/
theorem validateAndStoreCrt_nil_no_write (env : X509Env) (now : Int)
    (rsp : CertifyResponse) (cp : String) (wOk : Bool)
    (h : (validateAndStoreCrt env now rsp cp wOk).2.1 = none) :
    (validateAndStoreCrt env now rsp cp wOk).1 = [] ∧
    ∃ e, (validateAndStoreCrt env now rsp cp wOk).2.2 = some e := by
  have hc : (∃ e, validateAndStoreCrt env now rsp cp wOk = ([], none, some e)) ∨
      ∃ crt, (validateAndStoreCrt env now rsp cp wOk).2.1 = some crt := by
    unfold validateAndStoreCrt
    dsimp only
    repeat' split
    all_goals first
      | exact Or.inl ⟨_, rfl⟩
      | exact Or.inr ⟨_, rfl⟩
  rcases hc with ⟨e, he⟩ | ⟨crt, hc⟩
  · rw [he]
    exact ⟨rfl, e, rfl⟩
  · rw [hc] at h
    simp at h

/--
C5, counterexample.  The assignment `crt, err = validateAndStoreCrt(...)`
in the loop overwrites the held certificate with the function's nil return
on a validation failure.  Concretely: an agent holding a certificate
receives a Certify response with an empty leaf; after the iteration the
held certificate is gone (not retained), and the next refresh is scheduled
at `MIN_REFRESH_TIME` rather than from the previously held certificate.
-/
theorem loopIter_validation_failure_drops_held_cert :
    (loopIter env0 "crt.pem" ⟨[7], some ⟨0, 50 * second⟩⟩
        ⟨some [7], some ⟨[], []⟩, 10, true⟩).1.crt = none ∧
    (loopIter env0 "crt.pem" ⟨[7], some ⟨0, 50 * second⟩⟩
        ⟨some [7], some ⟨[], []⟩, 10, true⟩).1.crt ≠
      some ⟨0, 50 * second⟩ ∧
    (loopIter env0 "crt.pem" ⟨[7], some ⟨0, 50 * second⟩⟩
        ⟨some [7], some ⟨[], []⟩, 10, true⟩).2.2 = MIN_REFRESH_TIME := by
  refine ⟨rfl, by decide, rfl⟩

/--
C5, amended.  When a Certify response fails validation (nil certificate
returned by `validateAndStoreCrt`): the error is logged, the certificate
file is not overwritten, and the loop retries — but the previously held
certificate is NOT retained: the loop's certificate variable is
overwritten with nil, so the next refresh is scheduled at
`MIN_REFRESH_TIME` instead of from the previous certificate's expiry.
-/
theorem loopIter_validation_failure_amended (env : X509Env) (cp : String)
    (s : LoopState) (i : IterInput) (rsp : CertifyResponse)
    (hr : i.certifyRsp = some rsp)
    (hv : (validateAndStoreCrt env i.now rsp cp i.writeOk).2.1 = none) :
    (loopIter env cp s i).1.crt = none ∧
    (loopIter env cp s i).2.2 = MIN_REFRESH_TIME ∧
    AgentEvent.logValidateErr ∈ (loopIter env cp s i).2.1 ∧
    (∀ w, AgentEvent.fileWrite w ∉ (loopIter env cp s i).2.1) ∧
    (∀ o, (afterSleep o).2 = true) := by
  obtain ⟨hws, e, he⟩ := validateAndStoreCrt_nil_no_write env i.now rsp cp i.writeOk hv
  obtain ⟨tr, cr, now, wOk⟩ := i
  simp only [IterInput.certifyRsp] at hr
  subst hr
  simp only [IterInput.now, IterInput.writeOk] at hv hws he
  cases tr <;>
    simp_all [loopIter, afterSleep, SleepOutcome.rec] <;>
    intro o <;> cases o <;> simp [afterSleep]

/--
C5, witness for the amended theorem at a concrete validation failure
(empty leaf while holding a previous certificate).
-/
theorem loopIter_validation_failure_amended_witness :
    (loopIter env0 "c" ⟨[1], some ⟨0, 5⟩⟩ ⟨some [1], some ⟨[], []⟩, 0, true⟩).1.crt
        = none ∧
    (loopIter env0 "c" ⟨[1], some ⟨0, 5⟩⟩ ⟨some [1], some ⟨[], []⟩, 0, true⟩).2.2
        = MIN_REFRESH_TIME :=
  ⟨(loopIter_validation_failure_amended env0 "c" ⟨[1], some ⟨0, 5⟩⟩
      ⟨some [1], some ⟨[], []⟩, 0, true⟩ ⟨[], []⟩ rfl rfl).1,
   (loopIter_validation_failure_amended env0 "c" ⟨[1], some ⟨0, 5⟩⟩
      ⟨some [1], some ⟨[], []⟩, 0, true⟩ ⟨[], []⟩ rfl rfl).2.1⟩

/--
C9.  Every loop iteration re-reads the token before calling Certify: the
Certify call is made with the freshly read token when the read succeeds,
and with the previous token value when the read fails; a failed read is
logged, and the token carried to the next iteration is the same value the
Certify call used.
-/
theorem loopIter_reuses_previous_token_on_read_failure (env : X509Env)
    (cp : String) (s : LoopState) (i : IterInput) :
    AgentEvent.certifyCall (i.tokenRead.getD s.token) ∈ (loopIter env cp s i).2.1 ∧
    (loopIter env cp s i).1.token = i.tokenRead.getD s.token ∧
    (i.tokenRead = none →
      AgentEvent.logTokenReadErr ∈ (loopIter env cp s i).2.1) := by
  obtain ⟨tr, cr, now, wOk⟩ := i
  cases tr <;> cases cr <;> simp [loopIter]

/--
C9, witness: with a failing token read, the iteration logs the failure,
calls Certify with the previously held token `[3]`, and keeps it.
-/
theorem loopIter_token_read_failure_witness :
    AgentEvent.logTokenReadErr ∈
      (loopIter env0 "c" ⟨[3], none⟩ ⟨none, none, 0, true⟩).2.1 ∧
    (loopIter env0 "c" ⟨[3], none⟩ ⟨none, none, 0, true⟩).1.token = [3] := by
  refine ⟨(loopIter_reuses_previous_token_on_read_failure env0 "c" ⟨[3], none⟩
      ⟨none, none, 0, true⟩).2.2 rfl, ?_⟩
  simpa using (loopIter_reuses_previous_token_on_read_failure env0 "c"
    ⟨[3], none⟩ ⟨none, none, 0, true⟩).2.1

/--
C6.  In the identity-service `main`, whenever the gRPC server reaches
`srv.Serve`, the event trace is exactly one issuer verification against
`identity.<controllerNamespace>.<trustDomain>` followed by serving, with
the verification having succeeded; and when the issuer verification fails
(all earlier startup steps having succeeded), the process exits fatally
with the verification error, having never started serving.
-/
theorem identityMain_verifies_issuer_once_before_serving (w : IdentityWorld) :
    (SvcEvent.serveStarted ∈ (identityMain w).1 →
      (identityMain w).1 =
        [SvcEvent.verifyIssuer (expectedNameFor w.controllerNS w.trustDomain),
         SvcEvent.serveStarted] ∧
      w.issuerVerify = true ∧ (identityMain w).2 = .ok ()) ∧
    (w.issuerVerify = false →
      SvcEvent.serveStarted ∉ (identityMain w).1 ∧
      ∃ e, (identityMain w).2 = .error e) ∧
    (w.trustDomainOk = true → w.trustAnchorsRead = true →
     w.trustAnchorsDecode = true → w.credsRead = true →
     w.issuerVerify = false →
      (identityMain w).2 = .error .issuerVerifyErr ∧
      (identityMain w).1 =
        [SvcEvent.verifyIssuer
          (expectedNameFor w.controllerNS w.trustDomain)]) := by
  unfold identityMain
  dsimp only
  split_ifs <;> simp_all

/--
C6, witness: a fully healthy startup serves after exactly one issuer
verification, and a startup whose issuer verification fails exits with
the issuer-verification fatal error.
-/
theorem identityMain_verify_witness :
    (identityMain ⟨"ns", "dom", true, true, true, true, true, true, true,
        true⟩).1 =
      [SvcEvent.verifyIssuer (expectedNameFor "ns" "dom"),
       SvcEvent.serveStarted] ∧
    (identityMain ⟨"ns", "dom", true, true, true, true, false, true, true,
        true⟩).2 = .error .issuerVerifyErr :=
  ⟨((identityMain_verifies_issuer_once_before_serving
      ⟨"ns", "dom", true, true, true, true, true, true, true, true⟩).1
      (by decide)).1,
   ((identityMain_verifies_issuer_once_before_serving
      ⟨"ns", "dom", true, true, true, true, false, true, true, true⟩).2.2
      rfl rfl rfl rfl rfl).1⟩

/--
C7.  If the end-entity directory passes its earlier checks (trust anchors
loaded, directory named, stat succeeds, is a directory, permission test
passes) but any of the three artifact paths `key`, `csr`, `crt.pem`
already exists (and none of their stats fails outright), then the agent's
startup stops at `checkEndEntityDir` with an `Already exists` error:
no milestone is reached — no key generation, no CSR creation, no dial,
no loop entry (hence no Certify RPC) — and no file is written.
-/
theorem agentMain_fatal_on_preexisting_artifact (enc : Option Nat → List Nat)
    (w : AgentWorld) (fi : FileInfo)
    (hta : w.trustAnchorsLoad = true)
    (hdir : w.dir ≠ "")
    (hstat : w.fs.stat = some fi)
    (hisdir : fi.isDir = true)
    (hperm : fi.perm ≠ 0o700)
    (hks : w.fs.keyStat ≠ .statFailed)
    (hcs : w.fs.csrStat ≠ .statFailed)
    (hrs : w.fs.crtStat ≠ .statFailed)
    (hex : w.fs.keyStat = .found ∨ w.fs.csrStat = .found ∨
      w.fs.crtStat = .found) :
    (∃ p, (agentMain enc w).2.2 = .error (.alreadyExists p)) ∧
    (agentMain enc w).1 = [] ∧
    (agentMain enc w).2.1 = [] := by
  obtain ⟨ta, dir, ⟨st, ks, cs, crs⟩, gk, kw, nm, cg, cw, tp, tr, dk⟩ := w
  dsimp only at hta hstat hks hcs hrs hex hdir
  subst hta hstat
  cases ks <;> cases cs <;> cases crs <;>
    simp_all [agentMain, checkEndEntityDir, checkNotExists, filepathJoin,
      hisdir, hperm]

/--
C7, witness: a valid, `0755`-mode directory already containing `crt.pem`
makes startup fail with `Already exists` before any milestone or write.
-/
theorem agentMain_preexisting_crt_witness :
    (∃ p, (agentMain (fun _ => [])
        ⟨true, "d", ⟨some ⟨true, 0o755⟩, .notFound, .notFound, .found⟩,
         some 1, true, "id", some [2], true, "t", some [3], true⟩).2.2 =
      .error (.alreadyExists p)) ∧
    (agentMain (fun _ => [])
        ⟨true, "d", ⟨some ⟨true, 0o755⟩, .notFound, .notFound, .found⟩,
         some 1, true, "id", some [2], true, "t", some [3], true⟩).1 = [] ∧
    (agentMain (fun _ => [])
        ⟨true, "d", ⟨some ⟨true, 0o755⟩, .notFound, .notFound, .found⟩,
         some 1, true, "id", some [2], true, "t", some [3], true⟩).2.1 = [] :=
  agentMain_fatal_on_preexisting_artifact (fun _ => [])
    ⟨true, "d", ⟨some ⟨true, 0o755⟩, .notFound, .notFound, .found⟩,
     some 1, true, "id", some [2], true, "t", some [3], true⟩
    ⟨true, 0o755⟩ rfl (by decide) rfl rfl (by decide) (by decide) (by decide)
    (by decide) (Or.inr (Or.inr rfl))

/--
C8.  Given a nonempty leaf that parses and intermediates that parse,
`validateAndStoreCrt` behaves as claimed: a chain-verification failure is
a local error with nothing written; with the chain verified, `now <
NotBefore` and `NotAfter < now` are local errors with nothing written;
and only when chain verification and both validity-window checks succeed
is the leaf written to the certificate file with mode `0600` (the write's
own failure being surfaced as the returned error).
-/
theorem validateAndStoreCrt_checks (env : X509Env) (now : Int)
    (rsp : CertifyResponse) (cp : String) (wOk : Bool) (crt : Cert)
    (inters : List Cert)
    (hleaf : rsp.leafCertificate ≠ [])
    (hparse : env.parse rsp.leafCertificate = some crt)
    (hinters : parseIntermediates env rsp.intermediateCertificates =
      some inters) :
    (env.verify crt inters = false →
      validateAndStoreCrt env now rsp cp wOk = ([], none, some .verifyErr)) ∧
    (env.verify crt inters = true → now < crt.notBefore →
      validateAndStoreCrt env now rsp cp wOk =
        ([], none, some .notYetValid)) ∧
    (env.verify crt inters = true → ¬ now < crt.notBefore →
     crt.notAfter < now →
      validateAndStoreCrt env now rsp cp wOk = ([], none, some .expired)) ∧
    (env.verify crt inters = true → ¬ now < crt.notBefore →
     ¬ crt.notAfter < now →
      validateAndStoreCrt env now rsp cp wOk =
        ([⟨cp, rsp.leafCertificate, 0o600⟩], some crt,
         if wOk then none else some .writeErr)) := by
  refine ⟨fun hv => ?_, fun hv h1 => ?_, fun hv h1 h2 => ?_,
    fun hv h1 h2 => ?_⟩
  · simp [validateAndStoreCrt, List.length_eq_zero, hleaf, hparse, hinters, hv]
  · simp [validateAndStoreCrt, List.length_eq_zero, hleaf, hparse, hinters,
      hv, h1]
  · simp [validateAndStoreCrt, List.length_eq_zero, hleaf, hparse, hinters,
      hv, h1, h2]
  · simp [validateAndStoreCrt, List.length_eq_zero, hleaf, hparse, hinters,
      hv, h1, h2]

/-- A concrete x509 oracle accepting every chain, parsing any nonempty
byte list to a certificate valid on `[0, 100]`. -/
def envOk : X509Env :=
  ⟨fun b => if b.length == 0 then none else some ⟨0, 100⟩,
   fun _ _ => true⟩

/--
C8, witness: at time `50`, a parsable in-window leaf `[1]` is verified and
written to the certificate file with mode `0600`, returning the parsed
certificate and no error.
-/
theorem validateAndStoreCrt_checks_witness :
    validateAndStoreCrt envOk 50 ⟨[1], []⟩ "c" true =
      ([⟨"c", [1], 0o600⟩], some ⟨0, 100⟩, none) := by
  simpa using (validateAndStoreCrt_checks envOk 50 ⟨[1], []⟩ "c" true
    ⟨0, 100⟩ [] (by decide) rfl rfl).2.2.2 rfl (by decide) (by decide)

end Linkerd
